import Mathlib

/-!
# Roktrack core: Vision Pipeline and Pilot Decision Engine

Shallow embedding of the three source files

* `src/module/vision.rs`             (`RoktrackVision::run`, `VisionMgmtCommand`, `VisualInfo`)
* `src/module/pilot/follow_person.rs` (`FollowPerson::handle`, `assess_system_risk`,
                                      `assess_situation`, `SystemRisk`, `ActPhase`)
* `src/module/pilot/monitor_animal.rs` (`MonitorAnimal::handle`, `assess_system_risk`,
                                      `SystemRisk`)

Conventions of the embedding:

* Machine integers (`u16`, `u32`, `u64`, `i32`) are modelled as `Nat`/`Int`; the single
  narrowing cast in the source (`marker.h as u16` in `assess_situation`) is modelled
  explicitly as `% 65536`.
* `f32` values (`pi_temp`, `rest`, the hysteresis arithmetic) are modelled as exact
  rationals, with the literal `0.015` as `15/1000`.  The claims under verification fix
  `img_height = 480`, `ex_height = 100`: the exact `f32` threshold there is
  `100 - 480 * 0.014999999664…f32 ≈ 92.80000016`, the rational one is `92.8`, and no
  integer pixel height lies between the two, so the rational model and the `f32` code
  classify every integer marker height identically on those inputs.
* Effects on the outside world (motor primitives, speech, notifications) are recorded
  as an emitted effect list; per the spec (§4.4) the actuation primitives themselves own
  all mutation of `turn_count`/`phase`/`ex_height`, and those primitives live outside the
  excerpted sources, so the state returned by a handler is the state as mutated by the
  handler body itself.
* Fallible external calls that the source `unwrap`s/`expect`s are modelled as `Option`
  inputs plus an explicit `panic` output recording an aborted thread.
-/

/-- Modelled from the spec (§3): the Detection record `{class_id, confidence,
bounding_height, …}` produced by the external detector collaborator
(`vision::detector::Detection`, module not in the excerpt).  Only the fields the
pilots read are kept: `cls` (`u32` class id), `conf` (`f32` confidence) and `h`
(`u32` bounding-box pixel height, the monocular distance proxy). -/
structure Detection where
  cls : Nat
  conf : ℚ
  h : Nat
  deriving DecidableEq

/-- `Detection::default()`: the null detection (height 0 = "nothing seen"),
used by `detections.first().cloned().unwrap_or_default()`. -/
def Detection.default : Detection := ⟨0, 0, 0⟩

/-- `vision::VisualInfo` (vision.rs): timestamps in ms-epoch plus the detection list. -/
structure VisualInfo where
  shooting_start_time : Nat
  shooting_end_time : Nat
  detections : List Detection
  deriving DecidableEq

/-- Modelled from the spec (§3, glossary): the rotation-direction phase of the
turning behaviour (`pilot::Phase`, module file not in the excerpt). -/
inductive Phase where
  | cw
  | ccw
  deriving DecidableEq

/-- Modelled from the spec (§3): `pilot::RoktrackState` (module file not in the
excerpt), exactly the fields the spec lists: master enable, temperature, signed
turn counter, phase, previous marker height, frame height, arrival threshold,
last marker height, and the signed remaining-work counter. -/
structure RoktrackState where
  state : Bool
  pi_temp : ℚ
  turn_count : Int
  phase : Phase
  ex_height : Nat
  img_height : Nat
  target_height : Nat
  marker_height : Nat
  rest : ℚ
  deriving DecidableEq

/-- Modelled from the spec (§6): the snapshot of the device collaborator read by a
handler in one tick — `is_turning()`, `target_time` (ms-epoch) and
`bumper.switch.is_low()`. -/
structure DeviceState where
  isTurning : Bool
  targetTime : Nat
  bumperLow : Bool
  deriving DecidableEq

namespace FollowPerson

/-- `follow_person.rs` `SystemRisk`: the safety conditions of the FollowPerson pilot. -/
inductive SystemRisk where
  | stateOff
  | highTemp
  | bumped
  deriving DecidableEq

/-- `follow_person.rs` `assess_system_risk`: first match wins —
`!state.state` → StateOff, `pi_temp > 70.0` → HighTemp, bumper low → Bumped. -/
def assess_system_risk (s : RoktrackState) (dev : DeviceState) : Option SystemRisk :=
  if !s.state then some .stateOff
  else if (70 : ℚ) < s.pi_temp then some .highTemp
  else if dev.bumperLow then some .bumped
  else none

/-- `follow_person.rs` `ActPhase`: the decision outcomes of `assess_situation`. -/
inductive ActPhase where
  | turnCountExceeded
  | turnMarkerInvisible
  | turnMarkerFound
  | invertPhase
  | missionComplete
  | turnKeep
  | stand
  | startTurn
  | reachMarker
  | proceed
  deriving DecidableEq

/-- `follow_person.rs` `assess_situation`: the FollowPerson decision function.
The source compares `(marker.h as f32) < state.ex_height as f32 - state.img_height
as f32 * 0.015` — modelled over `ℚ` with `0.015 = 15/1000` — and casts
`marker.h as u16` in the arrival test, modelled as `% 65536`. -/
def assess_situation (s : RoktrackState) (marker : Detection) : Option ActPhase :=
  if 10 ≤ s.turn_count then some .turnCountExceeded
  else if 0 < s.turn_count then
    if marker.h = 0 then some .turnMarkerInvisible
    else if (marker.h : ℚ) < (s.ex_height : ℚ) - (s.img_height : ℚ) * (15 / 1000) then
      if s.rest < 0 then
        match s.phase with
        | .cw => some .missionComplete
        | .ccw => some .invertPhase
      else some .turnMarkerFound
    else some .turnKeep
  else if marker.h = 0 then
    if s.turn_count = -1 then some .stand
    else if s.turn_count = 0 then some .startTurn
    else none
  else if s.target_height ≤ marker.h % 65536 then some .reachMarker
  else some .proceed

end FollowPerson

/-- The externally visible actions a pilot handler triggers in one tick: the stop and
escape safety primitives, speech (`device.speak`), the single actuation primitive an
`ActPhase` maps to (`base::halt`/…/`device.pause`/`base::proceed`), and a
notification (`send_line_notify_with_image`). -/
inductive Effect where
  | stop
  | escape
  | speak (sound : String)
  | act (phase : FollowPerson.ActPhase)
  | notify (msg : String)
  deriving DecidableEq

namespace FollowPerson

/-- `FollowPerson::handle` (follow_person.rs): risk assessment and its per-risk
effects; the stale-frame guard (`is_turning && shooting_start_time < target_time +
300`); external sort/filter post-processing abstracted as the `postproc` parameter
(it is delegated to the detector collaborator, spec §4.4); selection of the first
post-processed detection with null-detection default; the unconditional
`state.marker_height = marker.h` write; and dispatch of the assessed `ActPhase` to
its actuation primitive, recorded as an `Effect.act`. Returns the state as mutated
by the handler body together with the emitted effects, in order. -/
def handle (s : RoktrackState) (dev : DeviceState) (vis : VisualInfo)
    (postproc : List Detection → List Detection) : RoktrackState × List Effect :=
  match assess_system_risk s dev with
  | some .stateOff => (s, [.stop])
  | some .highTemp => (s, [.stop, .speak "high_temp"])
  | some .bumped => (s, [.escape, .speak "bumped"])
  | none =>
    if dev.isTurning = true ∧ vis.shooting_start_time < dev.targetTime + 300 then
      (s, [])
    else
      let marker := (postproc vis.detections).head?.getD Detection.default
      let s1 := { s with marker_height := marker.h }
      match assess_situation s1 marker with
      | some a => (s1, [.act a])
      | none => (s1, [])

end FollowPerson

namespace MonitorAnimal

/-- `monitor_animal.rs` `SystemRisk`: MonitorAnimal has no collision-risk variant. -/
inductive SystemRisk where
  | stateOff
  | highTemp
  deriving DecidableEq

/-- `monitor_animal.rs` `assess_system_risk`: `!state.state` → StateOff,
`pi_temp > 70.0` → HighTemp; no bumper check. -/
def assess_system_risk (s : RoktrackState) : Option SystemRisk :=
  if !s.state then some .stateOff
  else if (70 : ℚ) < s.pi_temp then some .highTemp
  else none

/-- The `MonitorAnimal` struct: its one field, the handler-owned last-notified
timestamp (`last_detected_time`, ms-epoch, initialised to 0). -/
structure MAState where
  last_detected_time : Nat
  deriving DecidableEq

/-- Result of one `MonitorAnimal::handle` tick: updated handler struct, robot state,
emitted effects in order, and the panic message if the tick aborted the thread. -/
structure MAResult where
  ma : MAState
  state : RoktrackState
  effects : List Effect
  panic : Option String
  deriving DecidableEq

/-- `MonitorAnimal::handle` (monitor_animal.rs): risk assessment and its effects;
the stale-frame guard; then, on a non-empty detection list, the unthrottled
`device.speak("animal_detecting")`, and — when `last_detected_time + 60000 < now`
(`now` = `chrono::Utc::now().timestamp_millis()`) — the update of
`last_detected_time` to `now` followed by the notification naming
`AnimalClasses::from_u32(detections.first().unwrap().cls)`.  `AnimalClasses` lives
in the detector module outside the excerpt, so its `from_u32` is a parameter
`fromU32` giving the debug name of a known animal class, `none` for an unknown id;
`.expect("Unknown animal.")` on `none` and `.unwrap()` on an empty list are
modelled as `panic` outcomes. The notification send result is discarded (`let _`). -/
def handle (fromU32 : Nat → Option String) (ma : MAState) (s : RoktrackState)
    (dev : DeviceState) (vis : VisualInfo) (now : Nat) : MAResult :=
  match assess_system_risk s with
  | some .stateOff => ⟨ma, s, [.stop], none⟩
  | some .highTemp => ⟨ma, s, [.stop, .speak "high_temp"], none⟩
  | none =>
    if dev.isTurning = true ∧ vis.shooting_start_time < dev.targetTime + 300 then
      ⟨ma, s, [], none⟩
    else if vis.detections = [] then ⟨ma, s, [], none⟩
    else if ma.last_detected_time + 60000 < now then
      match vis.detections.head? with
      | none => ⟨⟨now⟩, s, [.speak "animal_detecting"], some "unwrap on empty Vec"⟩
      | some d =>
        match fromU32 d.cls with
        | none => ⟨⟨now⟩, s, [.speak "animal_detecting"], some "Unknown animal."⟩
        | some nm =>
          ⟨⟨now⟩, s, [.speak "animal_detecting", .notify (nm ++ " detected.")], none⟩
    else ⟨ma, s, [.speak "animal_detecting"], none⟩

end MonitorAnimal

namespace Vision

/-- `vision.rs` `VisionMgmtCommand`: the closed command set of the vision thread. -/
inductive VisionMgmtCommand where
  | on
  | off
  | switchSessionPylon
  | switchSessionPylonOcr
  | switchSessionAnimal
  | switchSz320
  | switchSz640
  deriving DecidableEq

/-- `detector::onnx::SessionType`: the active capture/inference resolution. -/
inductive SessionType where
  | sz320
  | sz640
  deriving DecidableEq

/-- Which model-session family the detector currently holds (rebuilt by the
`SwitchSession*` commands; the fallible build result is discarded by the source
via `let _ =`). -/
inductive SessionKind where
  | pylon
  | pylonOcr
  | animal
  deriving DecidableEq

/-- The vision worker's mutable state across loop iterations: the shared enabled
flag (`state : Arc<Mutex<bool>>`, initially `true`) and the detector configuration. -/
structure VisionState where
  enabled : Bool
  sessionType : SessionType
  sessionKind : SessionKind
  deriving DecidableEq

/-- The external inputs one loop iteration of `RoktrackVision::run` consumes:
the drained command (`rx.try_recv()`, `none` on `Err`), the two timestamps, the
camera result (`cam.take_picture().is_ok()`), the inference result
(`none` = `Err`), OCR support of the current configuration, and the OCR result. -/
structure StepInput where
  cmd : Option VisionMgmtCommand
  startTime : Nat
  endTime : Nat
  captureOk : Bool
  inferRes : Option (List Detection)
  ocrSupport : Bool
  ocrRes : Option (List Detection)
  deriving DecidableEq

/-- Observable outcome of one loop iteration: the state carried to the next
iteration, whether `take_picture` was invoked, the `VisualInfo` published on the
result channel (if any), and whether the iteration panicked (aborting the worker
thread — the source `unwrap`s the inference and OCR results). -/
structure StepResult where
  next : VisionState
  captured : Bool
  published : Option VisualInfo
  panicked : Bool
  deriving DecidableEq

/-- One iteration of the `thread::spawn(move || loop { … })` body of
`RoktrackVision::run` (vision.rs): drain at most one command (`Off` sets the flag
false and `continue`s before the capture block; `On` sets it true; session/size
commands update the detector configuration); skip the capture block when disabled;
otherwise capture (skipping publish on capture failure), then `infer(…).unwrap()`,
then, if `support_ocr()`, `ocr(…).unwrap()`, and finally send the completed
`VisualInfo` (`tx.send(…)` with a live receiver). -/
def step (vs : VisionState) (inp : StepInput) : StepResult :=
  match inp.cmd with
  | some .off => ⟨{ vs with enabled := false }, false, none, false⟩
  | c =>
    let vs1 : VisionState :=
      match c with
      | some .on => { vs with enabled := true }
      | some .switchSessionPylon => { vs with sessionKind := .pylon }
      | some .switchSessionPylonOcr => { vs with sessionKind := .pylonOcr }
      | some .switchSessionAnimal => { vs with sessionKind := .animal }
      | some .switchSz320 => { vs with sessionType := .sz320 }
      | some .switchSz640 => { vs with sessionType := .sz640 }
      | _ => vs
    if !vs1.enabled then ⟨vs1, false, none, false⟩
    else if !inp.captureOk then ⟨vs1, true, none, false⟩
    else
      match inp.inferRes with
      | none => ⟨vs1, true, none, true⟩
      | some dets =>
        if inp.ocrSupport then
          match inp.ocrRes with
          | none => ⟨vs1, true, none, true⟩
          | some dets2 =>
            ⟨vs1, true, some ⟨inp.startTime, inp.endTime, dets2⟩, false⟩
        else ⟨vs1, true, some ⟨inp.startTime, inp.endTime, dets⟩, false⟩

/-- Iterating `step` over a list of per-iteration inputs, threading the state. -/
def run : VisionState → List StepInput → List StepResult
  | _, [] => []
  | vs, i :: is =>
    let r := step vs i
    r :: run r.next is

end Vision

/-- Count of notification effects in an effect list. -/
def notifyCount (es : List Effect) : Nat :=
  (es.filter fun e => match e with | .notify _ => true | _ => false).length

/-- Written from the spec's words for the refinement check of the MonitorAnimal
notification contract ("naming the most-confident detected class"): the class id of
a detection of maximal confidence in the list. -/
def specMostConfidentClass (dets : List Detection) : Option Nat :=
  match dets with
  | [] => none
  | d :: ds => some ((ds.foldl (fun b x => if b.conf < x.conf then x else b) d).cls)

/-! ## Helper lemmas -/

/-- The source's hysteresis comparison `(marker.h as f32) < ex_height as f32 -
img_height as f32 * 0.015`, read as exact arithmetic, is equivalent to the
integer comparison obtained by scaling through the denominator 1000. -/
theorem hysteresis_exact (h ex img : ℕ) :
    ((h : ℚ) < (ex : ℚ) - (img : ℚ) * (15 / 1000)) ↔
      1000 * h + 15 * img < 1000 * ex := by
  have hcast : ((h : ℚ) < (ex : ℚ) - (img : ℚ) * (15 / 1000)) ↔
      ((1000 * h + 15 * img : ℕ) : ℚ) < ((1000 * ex : ℕ) : ℚ) := by
    push_cast
    constructor <;> intro hh <;> linarith
  rw [hcast, Nat.cast_lt]

/-- Inside the turning band (`0 < turn_count < 10`) with a visible marker,
`assess_situation` reduces to the hysteresis test (in its exact scaled-integer
form), the `rest` sign test and the phase match. -/
theorem assess_situation_band (s : RoktrackState) (m : Detection)
    (h0 : 0 < s.turn_count) (h10 : s.turn_count < 10) (hm : ¬ m.h = 0) :
    FollowPerson.assess_situation s m =
      if 1000 * m.h + 15 * s.img_height < 1000 * s.ex_height then
        if s.rest < 0 then
          match s.phase with
          | Phase.cw => some FollowPerson.ActPhase.missionComplete
          | Phase.ccw => some FollowPerson.ActPhase.invertPhase
        else some FollowPerson.ActPhase.turnMarkerFound
      else some FollowPerson.ActPhase.turnKeep := by
  unfold FollowPerson.assess_situation
  rw [if_neg (by omega : ¬ (10 : ℤ) ≤ s.turn_count), if_pos h0, if_neg hm]
  simp only [hysteresis_exact]

/-- A nat cast is below the decimal literal `92.8` exactly when the nat is at
most `92`. -/
theorem lt_928_iff (n : ℕ) : ((n : ℚ) < 92.8) ↔ n ≤ 92 := by
  constructor
  · intro hlt
    by_contra hc
    push_neg at hc
    have h93 : (93 : ℚ) ≤ (n : ℚ) := by exact_mod_cast hc
    norm_num at hlt
    linarith
  · intro hle
    have h92 : (n : ℚ) ≤ 92 := by exact_mod_cast hle
    norm_num
    linarith

/-! ## Claim theorems -/

/-- C8: for every state with `turn_count >= 10` the FollowPerson decision is
`TurnCountExceeded`, whatever the marker height, phase, rest, ex_height,
img_height and target_height are. -/
theorem c8_turn_count_exceeded (s : RoktrackState) (m : Detection)
    (h : 10 ≤ s.turn_count) :
    FollowPerson.assess_situation s m = some .turnCountExceeded := by
  unfold FollowPerson.assess_situation
  rw [if_pos h]

/-- Witness for C8 at `turn_count = 12`, marker height 55. -/
theorem c8_turn_count_exceeded_witness :
    (10 : ℤ) ≤ 12 ∧
    FollowPerson.assess_situation ⟨true, 20, 12, .cw, 100, 480, 50, 0, 0⟩ ⟨0, 0, 55⟩ =
      some .turnCountExceeded :=
  ⟨by decide, c8_turn_count_exceeded _ _ (by decide)⟩

/-- C4 counterexample: at `turn_count = 5`, `target_height = 50`, marker height 80
(with `ex_height = 100`, `img_height = 480`, `rest = 0`, phase CW) the decision is
`TurnMarkerFound`, not the `Proceed` the claim asserts — a positive `turn_count`
keeps the decision inside the turning band. -/
theorem c4_proceed_counterexample :
    FollowPerson.assess_situation ⟨true, 20, 5, .cw, 100, 480, 50, 0, 0⟩ ⟨0, 0, 80⟩ =
      some .turnMarkerFound ∧
    some FollowPerson.ActPhase.turnMarkerFound ≠ some FollowPerson.ActPhase.proceed :=
  ⟨(assess_situation_band _ _ (by decide) (by decide) (by decide)).trans (by decide),
    by decide⟩

/-- C4 (amended): `StartTurn` for `turn_count = 0` with marker height 0 and `Stand`
for `turn_count = -1` with marker height 0, as claimed; but with `turn_count = 5`
the decision is never `Proceed` — `Proceed` requires `turn_count ≤ 0` together with
a nonzero marker height strictly below `target_height`. -/
theorem c4_scenarios (s : RoktrackState) (m z : Detection) (hz : z.h = 0) :
    (s.turn_count = 0 → FollowPerson.assess_situation s z = some .startTurn) ∧
    (s.turn_count = -1 → FollowPerson.assess_situation s z = some .stand) ∧
    (s.turn_count ≤ 0 → 0 < m.h → m.h < s.target_height →
      FollowPerson.assess_situation s m = some .proceed) ∧
    (s.turn_count = 5 → FollowPerson.assess_situation s m ≠ some .proceed) := by
  refine ⟨?_, ?_, ?_, ?_⟩
  · intro h0
    unfold FollowPerson.assess_situation
    rw [if_neg (by omega : ¬ (10 : ℤ) ≤ s.turn_count),
      if_neg (by omega : ¬ (0 : ℤ) < s.turn_count), if_pos hz,
      if_neg (by omega : ¬ s.turn_count = -1), if_pos h0]
  · intro h1
    unfold FollowPerson.assess_situation
    rw [if_neg (by omega : ¬ (10 : ℤ) ≤ s.turn_count),
      if_neg (by omega : ¬ (0 : ℤ) < s.turn_count), if_pos hz, if_pos h1]
  · intro hle hpos hlt
    have hmod : m.h % 65536 ≤ m.h := Nat.mod_le _ _
    unfold FollowPerson.assess_situation
    rw [if_neg (by omega : ¬ (10 : ℤ) ≤ s.turn_count),
      if_neg (by omega : ¬ (0 : ℤ) < s.turn_count),
      if_neg (by omega : ¬ m.h = 0),
      if_neg (by omega : ¬ s.target_height ≤ m.h % 65536)]
  · intro h5
    by_cases hm0 : m.h = 0
    · unfold FollowPerson.assess_situation
      rw [if_neg (by omega : ¬ (10 : ℤ) ≤ s.turn_count),
        if_pos (by omega : (0 : ℤ) < s.turn_count), if_pos hm0]
      simp
    · rw [assess_situation_band s m (by omega) (by omega) hm0]
      split
      · split
        · cases s.phase <;> simp
        · simp
      · simp

/-- Witness for C4 (amended): `turn_count = 0` and `-1` scenarios with the null
detection; `Proceed` at `turn_count = -2`, marker height 80, `target_height = 100`;
and no `Proceed` at `turn_count = 5`. -/
theorem c4_scenarios_witness :
    ((⟨0, 0, 0⟩ : Detection).h = 0 ∧
      FollowPerson.assess_situation ⟨true, 20, 0, .cw, 100, 480, 50, 0, 0⟩ ⟨0, 0, 0⟩ =
        some .startTurn) ∧
    (FollowPerson.assess_situation ⟨true, 20, -1, .cw, 100, 480, 50, 0, 0⟩ ⟨0, 0, 0⟩ =
        some .stand) ∧
    (FollowPerson.assess_situation ⟨true, 20, -2, .cw, 100, 480, 100, 0, 0⟩ ⟨0, 0, 80⟩ =
        some .proceed) ∧
    (FollowPerson.assess_situation ⟨true, 20, 5, .cw, 100, 480, 100, 0, 0⟩ ⟨0, 0, 80⟩ ≠
        some .proceed) :=
  ⟨⟨rfl, (c4_scenarios ⟨true, 20, 0, .cw, 100, 480, 50, 0, 0⟩ ⟨0, 0, 80⟩ ⟨0, 0, 0⟩ rfl).1 rfl⟩,
    (c4_scenarios ⟨true, 20, -1, .cw, 100, 480, 50, 0, 0⟩ ⟨0, 0, 80⟩ ⟨0, 0, 0⟩ rfl).2.1 rfl,
    (c4_scenarios ⟨true, 20, -2, .cw, 100, 480, 100, 0, 0⟩ ⟨0, 0, 80⟩ ⟨0, 0, 0⟩ rfl).2.2.1
      (by decide) (by decide) (by decide),
    (c4_scenarios ⟨true, 20, 5, .cw, 100, 480, 100, 0, 0⟩ ⟨0, 0, 80⟩ ⟨0, 0, 0⟩ rfl).2.2.2 rfl⟩

/-- C5: with `img_height = 480` and `ex_height = 100` fixed and
`0 < turn_count < 10`, the FollowPerson decision leaves `TurnKeep` for
`TurnMarkerFound` or the terminal `MissionComplete`/`InvertPhase` outcomes exactly
when the (nonzero) marker height drops below `100 - 480 * 0.015 = 92.8`; for every
marker height in `[92.8, 100)` the decision is `TurnKeep`, and being a function of
the state alone it cannot alternate across repeated equal inputs.  (Marker height
0 is the null detection "nothing seen", spec §3, handled by the separate
`TurnMarkerInvisible` outcome.) -/
theorem c5_hysteresis_flip (s : RoktrackState) (m : Detection)
    (hex : s.ex_height = 100) (himg : s.img_height = 480)
    (h0 : 0 < s.turn_count) (h10 : s.turn_count < 10) :
    ((100 : ℚ) - 480 * (15 / 1000) = 92.8) ∧
    (1 ≤ m.h →
      ((FollowPerson.assess_situation s m = some .turnMarkerFound ∨
        FollowPerson.assess_situation s m = some .missionComplete ∨
        FollowPerson.assess_situation s m = some .invertPhase) ↔
        (m.h : ℚ) < 92.8)) ∧
    ((92.8 : ℚ) ≤ (m.h : ℚ) → (m.h : ℚ) < 100 →
      FollowPerson.assess_situation s m = some .turnKeep) := by
  refine ⟨by norm_num, ?_, ?_⟩
  · intro h1
    have hband := assess_situation_band s m h0 h10 (by omega)
    rw [hex, himg] at hband
    rw [lt_928_iff]
    by_cases hc : m.h ≤ 92
    · rw [hband, if_pos (by omega)]
      constructor
      · intro _
        exact hc
      · intro _
        by_cases hr : s.rest < 0
        · rw [if_pos hr]
          cases s.phase <;> simp
        · rw [if_neg hr]
          simp
    · rw [hband, if_neg (by omega)]
      constructor
      · intro hor
        rcases hor with h | h | h <;> simp at h
      · intro h
        exact absurd h hc
  · intro hlo hhi
    have h93 : 93 ≤ m.h := by
      by_contra hc
      push_neg at hc
      have : m.h ≤ 92 := by omega
      exact absurd ((lt_928_iff m.h).mpr this) (not_lt.mpr hlo)
    have hband := assess_situation_band s m h0 h10 (by omega)
    rw [hex, himg] at hband
    rw [hband, if_neg (by omega)]

/-- Witness for C5 at `turn_count = 3` and marker height 93 (inside the
`[92.8, 100)` band). -/
theorem c5_hysteresis_flip_witness :
    (⟨true, 20, 3, .cw, 100, 480, 50, 0, 0⟩ : RoktrackState).ex_height = 100 ∧
    (⟨true, 20, 3, .cw, 100, 480, 50, 0, 0⟩ : RoktrackState).img_height = 480 ∧
    (0 : ℤ) < 3 ∧ (3 : ℤ) < 10 ∧
    (((100 : ℚ) - 480 * (15 / 1000) = 92.8) ∧
      (1 ≤ (⟨0, 0, 93⟩ : Detection).h →
        ((FollowPerson.assess_situation ⟨true, 20, 3, .cw, 100, 480, 50, 0, 0⟩ ⟨0, 0, 93⟩ =
            some .turnMarkerFound ∨
          FollowPerson.assess_situation ⟨true, 20, 3, .cw, 100, 480, 50, 0, 0⟩ ⟨0, 0, 93⟩ =
            some .missionComplete ∨
          FollowPerson.assess_situation ⟨true, 20, 3, .cw, 100, 480, 50, 0, 0⟩ ⟨0, 0, 93⟩ =
            some .invertPhase) ↔
          (((⟨0, 0, 93⟩ : Detection).h : ℚ) < 92.8))) ∧
      ((92.8 : ℚ) ≤ ((⟨0, 0, 93⟩ : Detection).h : ℚ) →
        (((⟨0, 0, 93⟩ : Detection).h : ℚ) < 100 →
          FollowPerson.assess_situation ⟨true, 20, 3, .cw, 100, 480, 50, 0, 0⟩ ⟨0, 0, 93⟩ =
            some .turnKeep))) :=
  ⟨rfl, rfl, by decide, by decide,
    c5_hysteresis_flip ⟨true, 20, 3, .cw, 100, 480, 50, 0, 0⟩ ⟨0, 0, 93⟩ rfl rfl
      (by decide) (by decide)⟩

/-- C6 counterexample: a state with `rest = -1 < 0`, phase CW, `turn_count = 5`
inside the band, but marker height 95 above the hysteresis threshold `92.8`
(`ex_height = 100`, `img_height = 480`): the decision is `TurnKeep`, not the
`MissionComplete` the claim asserts for every `rest < 0` CW state. -/
theorem c6_rest_counterexample :
    (⟨true, 20, 5, .cw, 100, 480, 50, 0, -1⟩ : RoktrackState).rest < 0 ∧
    (⟨true, 20, 5, .cw, 100, 480, 50, 0, -1⟩ : RoktrackState).phase = .cw ∧
    FollowPerson.assess_situation ⟨true, 20, 5, .cw, 100, 480, 50, 0, -1⟩ ⟨0, 0, 95⟩ =
      some .turnKeep ∧
    some FollowPerson.ActPhase.turnKeep ≠ some FollowPerson.ActPhase.missionComplete :=
  ⟨by decide, rfl,
    (assess_situation_band _ _ (by decide) (by decide) (by decide)).trans (by decide),
    by decide⟩

/-- C6 (amended): whenever `0 < turn_count < 10`, the marker is visible
(height ≠ 0) and below the hysteresis threshold `ex_height - img_height * 0.015`
(stated in its exact scaled-integer form, proved equivalent to the rational form
in the first conjunct), and `rest < 0`, the decision is `MissionComplete` for
phase CW and `InvertPhase` for phase CCW; inside the band the outcome does not
depend on the particular `turn_count`. -/
theorem c6_rest_phase (s : RoktrackState) (m : Detection)
    (h0 : 0 < s.turn_count) (h10 : s.turn_count < 10) (hm : ¬ m.h = 0)
    (hband : 1000 * m.h + 15 * s.img_height < 1000 * s.ex_height)
    (hrest : s.rest < 0) :
    ((1000 * m.h + 15 * s.img_height < 1000 * s.ex_height) ↔
      (m.h : ℚ) < (s.ex_height : ℚ) - (s.img_height : ℚ) * (15 / 1000)) ∧
    FollowPerson.assess_situation s m =
      (match s.phase with
       | Phase.cw => some FollowPerson.ActPhase.missionComplete
       | Phase.ccw => some FollowPerson.ActPhase.invertPhase) ∧
    (∀ tc : Int, 0 < tc → tc < 10 →
      FollowPerson.assess_situation { s with turn_count := tc } m =
        FollowPerson.assess_situation s m) := by
  refine ⟨(hysteresis_exact m.h s.ex_height s.img_height).symm, ?_, ?_⟩
  · rw [assess_situation_band s m h0 h10 hm, if_pos hband, if_pos hrest]
  · intro tc htc0 htc10
    rw [assess_situation_band s m h0 h10 hm,
      assess_situation_band { s with turn_count := tc } m htc0 htc10 hm]

/-- Witness for C6 (amended) at `turn_count = 5`, `rest = -1`, phase CW,
marker height 80, `ex_height = 100`, `img_height = 480`. -/
theorem c6_rest_phase_witness :
    (0 : ℤ) < 5 ∧ (5 : ℤ) < 10 ∧ ¬ (80 = 0) ∧
    1000 * 80 + 15 * 480 < 1000 * 100 ∧ (-1 : ℚ) < 0 ∧
    FollowPerson.assess_situation ⟨true, 20, 5, .cw, 100, 480, 50, 0, -1⟩ ⟨0, 0, 80⟩ =
      some .missionComplete :=
  ⟨by decide, by decide, by decide, by decide, by decide,
    (c6_rest_phase ⟨true, 20, 5, .cw, 100, 480, 50, 0, -1⟩ ⟨0, 0, 80⟩
        (by decide) (by decide) (by decide) (by decide) (by decide)).2.1⟩

/-- C2: with master enable false and `pi_temp = 90.0`, risk assessment yields
`StateOff` and only the StateOff handling runs in both handlers — the emitted
effect list is exactly `[stop]`, so the stop primitive is invoked and no
`high_temp` speech occurs; `StateOff` wins over the otherwise-matching `HighTemp`
because the source tests `!state.state` first. -/
theorem c2_state_off_priority (s : RoktrackState) (dev : DeviceState)
    (vis : VisualInfo) (postproc : List Detection → List Detection)
    (fromU32 : Nat → Option String) (ma : MonitorAnimal.MAState) (now : Nat)
    (hs : s.state = false) (ht : s.pi_temp = 90) :
    FollowPerson.assess_system_risk s dev = some .stateOff ∧
    FollowPerson.handle s dev vis postproc = (s, [.stop]) ∧
    Effect.speak "high_temp" ∉ (FollowPerson.handle s dev vis postproc).2 ∧
    MonitorAnimal.assess_system_risk s = some .stateOff ∧
    MonitorAnimal.handle fromU32 ma s dev vis now = ⟨ma, s, [.stop], none⟩ ∧
    Effect.speak "high_temp" ∉ (MonitorAnimal.handle fromU32 ma s dev vis now).effects := by
  have h1 : FollowPerson.assess_system_risk s dev = some .stateOff := by
    simp [FollowPerson.assess_system_risk, hs]
  have h2 : MonitorAnimal.assess_system_risk s = some .stateOff := by
    simp [MonitorAnimal.assess_system_risk, hs]
  have h3 : FollowPerson.handle s dev vis postproc = (s, [.stop]) := by
    simp [FollowPerson.handle, h1]
  have h4 : MonitorAnimal.handle fromU32 ma s dev vis now = ⟨ma, s, [.stop], none⟩ := by
    simp [MonitorAnimal.handle, h2]
  refine ⟨h1, h3, ?_, h2, h4, ?_⟩
  · rw [h3]
    simp
  · rw [h4]
    simp

/-- Witness for C2: a concrete off-state robot at 90 °C, idle device, empty frame. -/
theorem c2_state_off_priority_witness :
    (⟨false, 90, 0, .cw, 100, 480, 50, 0, 0⟩ : RoktrackState).state = false ∧
    (⟨false, 90, 0, .cw, 100, 480, 50, 0, 0⟩ : RoktrackState).pi_temp = 90 ∧
    FollowPerson.handle ⟨false, 90, 0, .cw, 100, 480, 50, 0, 0⟩ ⟨false, 0, false⟩
        ⟨0, 0, []⟩ id = (⟨false, 90, 0, .cw, 100, 480, 50, 0, 0⟩, [.stop]) ∧
    MonitorAnimal.handle (fun _ => none) ⟨0⟩ ⟨false, 90, 0, .cw, 100, 480, 50, 0, 0⟩
        ⟨false, 0, false⟩ ⟨0, 0, []⟩ 0 =
      ⟨⟨0⟩, ⟨false, 90, 0, .cw, 100, 480, 50, 0, 0⟩, [.stop], none⟩ :=
  ⟨rfl, rfl,
    (c2_state_off_priority ⟨false, 90, 0, .cw, 100, 480, 50, 0, 0⟩ ⟨false, 0, false⟩
        ⟨0, 0, []⟩ id (fun _ => none) ⟨0⟩ 0 rfl rfl).2.1,
    (c2_state_off_priority ⟨false, 90, 0, .cw, 100, 480, 50, 0, 0⟩ ⟨false, 0, false⟩
        ⟨0, 0, []⟩ id (fun _ => none) ⟨0⟩ 0 rfl rfl).2.2.2.2.1⟩

/-- C3 counterexample: a turning-stale tick (`is_turning`, `shooting_start_time =
500 < 1000 + 300 = target_time + 300`) whose state has master enable false does
not return without acting — the StateOff risk handling runs first and emits the
stop primitive, so the claim's "for every invocation" quantification fails. -/
theorem c3_stale_counterexample :
    (⟨true, 1000, false⟩ : DeviceState).isTurning = true ∧
    (⟨500, 600, []⟩ : VisualInfo).shooting_start_time <
      (⟨true, 1000, false⟩ : DeviceState).targetTime + 300 ∧
    (FollowPerson.handle ⟨false, 20, 0, .cw, 100, 480, 50, 7, 0⟩ ⟨true, 1000, false⟩
        ⟨500, 600, []⟩ id).2 = [.stop] ∧
    ([Effect.stop] ≠ ([] : List Effect)) := by
  refine ⟨rfl, by decide, ?_, by decide⟩
  have h1 : FollowPerson.assess_system_risk ⟨false, 20, 0, .cw, 100, 480, 50, 7, 0⟩
      ⟨true, 1000, false⟩ = some .stateOff := by decide
  simp [FollowPerson.handle, h1]

/-- C3 (amended): when no system risk fires (master enable true, `pi_temp` not
above 70.0, bumper not low) and the device is turning with `shooting_start_time <
target_time + 300`, both handlers return without acting — no effect is emitted —
and the `RoktrackState` is byte-for-byte unchanged, `marker_height` included. -/
theorem c3_stale_frame_unchanged (s : RoktrackState) (dev : DeviceState)
    (vis : VisualInfo) (postproc : List Detection → List Detection)
    (fromU32 : Nat → Option String) (ma : MonitorAnimal.MAState) (now : Nat)
    (hs : s.state = true) (ht : ¬ (70 : ℚ) < s.pi_temp) (hb : dev.bumperLow = false)
    (hturn : dev.isTurning = true)
    (hstale : vis.shooting_start_time < dev.targetTime + 300) :
    FollowPerson.handle s dev vis postproc = (s, []) ∧
    MonitorAnimal.handle fromU32 ma s dev vis now = ⟨ma, s, [], none⟩ := by
  have h1 : FollowPerson.assess_system_risk s dev = none := by
    simp [FollowPerson.assess_system_risk, hs, ht, hb]
  have h2 : MonitorAnimal.assess_system_risk s = none := by
    simp [MonitorAnimal.assess_system_risk, hs, ht]
  constructor
  · simp [FollowPerson.handle, h1, hturn, hstale]
  · simp [MonitorAnimal.handle, h2, hturn, hstale]

/-- Witness for C3 (amended): healthy state (20 °C, enabled), turning device,
frame shot 500 ms-epoch against `target_time + 300 = 1300`, one pending detection
that must not be consumed. -/
theorem c3_stale_frame_unchanged_witness :
    (⟨true, 20, 0, .cw, 100, 480, 50, 7, 0⟩ : RoktrackState).state = true ∧
    ¬ ((70 : ℚ) < 20) ∧
    (500 : ℕ) < 1000 + 300 ∧
    FollowPerson.handle ⟨true, 20, 0, .cw, 100, 480, 50, 7, 0⟩ ⟨true, 1000, false⟩
        ⟨500, 600, [⟨0, 0, 42⟩]⟩ id = (⟨true, 20, 0, .cw, 100, 480, 50, 7, 0⟩, []) ∧
    MonitorAnimal.handle (fun _ => none) ⟨0⟩ ⟨true, 20, 0, .cw, 100, 480, 50, 7, 0⟩
        ⟨true, 1000, false⟩ ⟨500, 600, [⟨0, 0, 42⟩]⟩ 999999 =
      ⟨⟨0⟩, ⟨true, 20, 0, .cw, 100, 480, 50, 7, 0⟩, [], none⟩ :=
  ⟨rfl, by decide, by decide,
    (c3_stale_frame_unchanged ⟨true, 20, 0, .cw, 100, 480, 50, 7, 0⟩ ⟨true, 1000, false⟩
        ⟨500, 600, [⟨0, 0, 42⟩]⟩ id (fun _ => none) ⟨0⟩ 999999 rfl (by decide) rfl rfl
        (by decide)).1,
    (c3_stale_frame_unchanged ⟨true, 20, 0, .cw, 100, 480, 50, 7, 0⟩ ⟨true, 1000, false⟩
        ⟨500, 600, [⟨0, 0, 42⟩]⟩ id (fun _ => none) ⟨0⟩ 999999 rfl (by decide) rfl rfl
        (by decide)).2⟩

/-- C1 counterexample: an enabled iteration with no pending command whose capture
succeeds but whose inference returns an error does not skip-and-continue — the
source calls `dets.unwrap()`, so the iteration panics and the worker thread
aborts, publishing nothing. -/
theorem c1_infer_failure_counterexample :
    (Vision.step ⟨true, .sz640, .pylon⟩ ⟨none, 0, 1, true, none, false, none⟩).panicked =
      true ∧
    (Vision.step ⟨true, .sz640, .pylon⟩ ⟨none, 0, 1, true, none, false, none⟩).published =
      none := by
  constructor <;> rfl

/-- C1 (amended): in an enabled capture cycle with no pending command, a capture
failure skips publishing and the loop continues (non-fatal, no partial
`VisualInfo`), but an inference failure or an OCR failure panics the worker via
`unwrap`, aborting the loop; only the capture step's failure is swallowed. -/
theorem c1_failure_policy (vs : Vision.VisionState) (inp : Vision.StepInput)
    (hen : vs.enabled = true) (hcmd : inp.cmd = none) :
    (inp.captureOk = false →
      Vision.step vs inp = ⟨vs, true, none, false⟩) ∧
    (inp.captureOk = true → inp.inferRes = none →
      (Vision.step vs inp).published = none ∧ (Vision.step vs inp).panicked = true) ∧
    (∀ dets, inp.captureOk = true → inp.inferRes = some dets → inp.ocrSupport = true →
      inp.ocrRes = none →
      (Vision.step vs inp).published = none ∧ (Vision.step vs inp).panicked = true) := by
  refine ⟨?_, ?_, ?_⟩
  · intro hcap
    simp [Vision.step, hcmd, hen, hcap]
  · intro hcap hinf
    simp [Vision.step, hcmd, hen, hcap, hinf]
  · intro dets hcap hinf hocr hres
    simp [Vision.step, hcmd, hen, hcap, hinf, hocr, hres]

/-- Witness for C1 (amended): the capture-failure conjunct at a concrete enabled
state and input — cycle skipped, nothing published, no panic. -/
theorem c1_failure_policy_witness :
    (⟨true, .sz640, .pylon⟩ : Vision.VisionState).enabled = true ∧
    (⟨none, 0, 1, false, none, false, none⟩ : Vision.StepInput).cmd = none ∧
    Vision.step ⟨true, .sz640, .pylon⟩ ⟨none, 0, 1, false, none, false, none⟩ =
      ⟨⟨true, .sz640, .pylon⟩, true, none, false⟩ :=
  ⟨rfl, rfl, (c1_failure_policy ⟨true, .sz640, .pylon⟩
      ⟨none, 0, 1, false, none, false, none⟩ rfl rfl).1 rfl⟩

/-- A disabled iteration whose drained command is not `On` neither captures nor
publishes, and leaves the worker disabled (an `Off` iteration stays disabled
regardless). -/
theorem step_disabled_no_capture (vs : Vision.VisionState) (i : Vision.StepInput)
    (hdis : vs.enabled = false) (hi : i.cmd ≠ some Vision.VisionMgmtCommand.on) :
    (Vision.step vs i).captured = false ∧ (Vision.step vs i).published = none ∧
      (Vision.step vs i).next.enabled = false := by
  rcases hc : i.cmd with _ | c
  · simp [Vision.step, hc, hdis]
  · cases c
    · exact absurd hc hi
    · simp [Vision.step, hc]
    · simp [Vision.step, hc, hdis]
    · simp [Vision.step, hc, hdis]
    · simp [Vision.step, hc, hdis]
    · simp [Vision.step, hc, hdis]
    · simp [Vision.step, hc, hdis]

/-- From a disabled worker, any run of iterations none of which drains `On`
captures nothing, publishes nothing, and stays disabled throughout. -/
theorem run_disabled_no_capture (inps : List Vision.StepInput) :
    ∀ vs : Vision.VisionState, vs.enabled = false →
      (∀ i ∈ inps, i.cmd ≠ some Vision.VisionMgmtCommand.on) →
      ∀ r ∈ Vision.run vs inps,
        r.captured = false ∧ r.published = none ∧ r.next.enabled = false := by
  induction inps with
  | nil =>
    intro vs _ _ r hr
    simp [Vision.run] at hr
  | cons i is ih =>
    intro vs hdis hno r hr
    simp only [Vision.run] at hr
    rcases List.mem_cons.mp hr with h | h
    · subst h
      exact step_disabled_no_capture vs i hdis (hno i (List.mem_cons_self i is))
    · have hstep := step_disabled_no_capture vs i hdis (hno i (List.mem_cons_self i is))
      exact ih (Vision.step vs i).next hstep.2.2
        (fun j hj => hno j (List.mem_cons_of_mem i hj)) r h

/-- C9: an iteration that drains `Off` clears the enabled flag and restarts the
loop immediately — it neither captures nor publishes, whatever the prior state —
and from a disabled worker every subsequent iteration that does not drain `On`
performs no capture and publishes no `VisualInfo`, the flag staying false. -/
theorem c9_off_suppresses_capture (vs0 vs : Vision.VisionState)
    (inp : Vision.StepInput) (inps : List Vision.StepInput)
    (hoff : inp.cmd = some Vision.VisionMgmtCommand.off)
    (hdis : vs.enabled = false)
    (hnoOn : ∀ i ∈ inps, i.cmd ≠ some Vision.VisionMgmtCommand.on) :
    Vision.step vs0 inp = ⟨{ vs0 with enabled := false }, false, none, false⟩ ∧
    ∀ r ∈ Vision.run vs inps,
      r.captured = false ∧ r.published = none ∧ r.next.enabled = false := by
  constructor
  · simp [Vision.step, hoff]
  · exact run_disabled_no_capture inps vs hdis hnoOn

/-- Witness for C9: the `Off` iteration from an enabled state, then two further
iterations (idle drain, then a resolution switch) from the disabled state — none
captures or publishes. -/
theorem c9_off_suppresses_capture_witness :
    (⟨some Vision.VisionMgmtCommand.off, 0, 1, true, some [], false, none⟩ :
        Vision.StepInput).cmd = some Vision.VisionMgmtCommand.off ∧
    (⟨false, .sz640, .pylon⟩ : Vision.VisionState).enabled = false ∧
    Vision.step ⟨true, .sz640, .pylon⟩
        ⟨some Vision.VisionMgmtCommand.off, 0, 1, true, some [], false, none⟩ =
      ⟨⟨false, .sz640, .pylon⟩, false, none, false⟩ ∧
    ∀ r ∈ Vision.run ⟨false, .sz640, .pylon⟩
        [⟨none, 2, 3, true, some [], false, none⟩,
         ⟨some Vision.VisionMgmtCommand.switchSz320, 4, 5, true, some [], false, none⟩],
      r.captured = false ∧ r.published = none ∧ r.next.enabled = false :=
  ⟨rfl, rfl,
    (c9_off_suppresses_capture ⟨true, .sz640, .pylon⟩ ⟨false, .sz640, .pylon⟩
        ⟨some Vision.VisionMgmtCommand.off, 0, 1, true, some [], false, none⟩
        [⟨none, 2, 3, true, some [], false, none⟩,
         ⟨some Vision.VisionMgmtCommand.switchSz320, 4, 5, true, some [], false, none⟩]
        rfl rfl (by decide)).1,
    (c9_off_suppresses_capture ⟨true, .sz640, .pylon⟩ ⟨false, .sz640, .pylon⟩
        ⟨some Vision.VisionMgmtCommand.off, 0, 1, true, some [], false, none⟩
        [⟨none, 2, 3, true, some [], false, none⟩,
         ⟨some Vision.VisionMgmtCommand.switchSz320, 4, 5, true, some [], false, none⟩]
        rfl rfl (by decide)).2⟩

/-- C7 counterexample: a healthy, non-stale tick with two detections where the
first has confidence 0 and the second (class 2) confidence 1: the notification
emitted names the first detection's class ("Boar"), while the most-confident
detected class is 2 ("Bear") — `monitor_animal.rs` applies no confidence sort and
reads `detections.first()`. -/
theorem c7_most_confident_counterexample :
    (MonitorAnimal.handle
        (fun n => if n = 1 then some "Boar" else if n = 2 then some "Bear" else none)
        ⟨0⟩ ⟨true, 20, 0, .cw, 100, 480, 50, 0, 0⟩ ⟨false, 0, false⟩
        ⟨500, 600, [⟨1, 0, 50⟩, ⟨2, 1, 60⟩]⟩ 70000).effects =
      [.speak "animal_detecting", .notify "Boar detected."] ∧
    specMostConfidentClass [⟨1, 0, 50⟩, ⟨2, 1, 60⟩] = some 2 ∧
    (fun n => if n = 1 then some "Boar" else if n = 2 then some "Bear" else none) 2 =
      some "Bear" ∧
    Effect.notify "Bear detected." ∉
      (MonitorAnimal.handle
          (fun n => if n = 1 then some "Boar" else if n = 2 then some "Bear" else none)
          ⟨0⟩ ⟨true, 20, 0, .cw, 100, 480, 50, 0, 0⟩ ⟨false, 0, false⟩
          ⟨500, 600, [⟨1, 0, 50⟩, ⟨2, 1, 60⟩]⟩ 70000).effects := by
  refine ⟨rfl, rfl, rfl, ?_⟩
  decide

/-- C7 (amended): on every healthy (no risk), non-stale MonitorAnimal tick with a
non-empty detection list, the audible `animal_detecting` alert is emitted first and
unthrottled — for any value of the handler's timestamp — while the notification is
rate-limited by `last_detected_time`: a notifying tick at time `t` followed by an
equal detection 59,999 ms later yields exactly one notification in total, and
60,001 ms later yields exactly two; the notification names the class of the first
detection in the list (the most-confident one only if the upstream producer orders
by confidence, which this handler does not enforce). -/
theorem c7_alert_and_throttle (fromU32 : Nat → Option String)
    (ma : MonitorAnimal.MAState) (s : RoktrackState) (dev : DeviceState)
    (vis : VisualInfo) (t : Nat) (d : Detection) (ds : List Detection) (nm : String)
    (hs : s.state = true) (ht : ¬ (70 : ℚ) < s.pi_temp)
    (hstale : ¬ (dev.isTurning = true ∧ vis.shooting_start_time < dev.targetTime + 300))
    (hdets : vis.detections = d :: ds)
    (hname : fromU32 d.cls = some nm)
    (hgap : ma.last_detected_time + 60000 < t) :
    (∀ ma2 : MonitorAnimal.MAState,
      (MonitorAnimal.handle fromU32 ma2 s dev vis t).effects.head? =
        some (.speak "animal_detecting")) ∧
    MonitorAnimal.handle fromU32 ma s dev vis t =
      ⟨⟨t⟩, s, [.speak "animal_detecting", .notify (nm ++ " detected.")], none⟩ ∧
    notifyCount (MonitorAnimal.handle fromU32 ma s dev vis t).effects +
      notifyCount (MonitorAnimal.handle fromU32 ⟨t⟩ s dev vis (t + 59999)).effects = 1 ∧
    notifyCount (MonitorAnimal.handle fromU32 ma s dev vis t).effects +
      notifyCount (MonitorAnimal.handle fromU32 ⟨t⟩ s dev vis (t + 60001)).effects = 2 := by
  have hrisk : MonitorAnimal.assess_system_risk s = none := by
    simp [MonitorAnimal.assess_system_risk, hs, ht]
  have hfirst : MonitorAnimal.handle fromU32 ma s dev vis t =
      ⟨⟨t⟩, s, [.speak "animal_detecting", .notify (nm ++ " detected.")], none⟩ := by
    simp [MonitorAnimal.handle, hrisk, hstale, hdets, hname, hgap]
  have hsecond : MonitorAnimal.handle fromU32 ⟨t⟩ s dev vis (t + 59999) =
      ⟨⟨t⟩, s, [.speak "animal_detecting"], none⟩ := by
    have hng : ¬ (t + 60000 < t + 59999) := by omega
    simp [MonitorAnimal.handle, hrisk, hstale, hdets, hng]
  have hthird : MonitorAnimal.handle fromU32 ⟨t⟩ s dev vis (t + 60001) =
      ⟨⟨t + 60001⟩, s, [.speak "animal_detecting", .notify (nm ++ " detected.")], none⟩ := by
    have hg : t + 60000 < t + 60001 := by omega
    simp [MonitorAnimal.handle, hrisk, hstale, hdets, hname, hg]
  refine ⟨?_, hfirst, ?_, ?_⟩
  · intro ma2
    by_cases hg2 : ma2.last_detected_time + 60000 < t
    · simp [MonitorAnimal.handle, hrisk, hstale, hdets, hname, hg2]
    · simp [MonitorAnimal.handle, hrisk, hstale, hdets, hg2]
  · rw [hfirst, hsecond]
    simp [notifyCount]
  · rw [hfirst, hthird]
    simp [notifyCount]

/-- Witness for C7 (amended): one boar detection at `t = 70000` after a last
notification at 0; repeats 59,999 ms and 60,001 ms later. -/
theorem c7_alert_and_throttle_witness :
    ((0 : ℕ) + 60000 < 70000) ∧
    ((fun n => if n = 1 then some "Boar" else none) 1 = some "Boar") ∧
    notifyCount (MonitorAnimal.handle (fun n => if n = 1 then some "Boar" else none)
        ⟨0⟩ ⟨true, 20, 0, .cw, 100, 480, 50, 0, 0⟩ ⟨false, 0, false⟩
        ⟨500, 600, [⟨1, 0, 50⟩]⟩ 70000).effects +
      notifyCount (MonitorAnimal.handle (fun n => if n = 1 then some "Boar" else none)
        ⟨70000⟩ ⟨true, 20, 0, .cw, 100, 480, 50, 0, 0⟩ ⟨false, 0, false⟩
        ⟨500, 600, [⟨1, 0, 50⟩]⟩ (70000 + 59999)).effects = 1 ∧
    notifyCount (MonitorAnimal.handle (fun n => if n = 1 then some "Boar" else none)
        ⟨0⟩ ⟨true, 20, 0, .cw, 100, 480, 50, 0, 0⟩ ⟨false, 0, false⟩
        ⟨500, 600, [⟨1, 0, 50⟩]⟩ 70000).effects +
      notifyCount (MonitorAnimal.handle (fun n => if n = 1 then some "Boar" else none)
        ⟨70000⟩ ⟨true, 20, 0, .cw, 100, 480, 50, 0, 0⟩ ⟨false, 0, false⟩
        ⟨500, 600, [⟨1, 0, 50⟩]⟩ (70000 + 60001)).effects = 2 :=
  ⟨by decide, rfl,
    (c7_alert_and_throttle (fun n => if n = 1 then some "Boar" else none) ⟨0⟩
        ⟨true, 20, 0, .cw, 100, 480, 50, 0, 0⟩ ⟨false, 0, false⟩
        ⟨500, 600, [⟨1, 0, 50⟩]⟩ 70000 ⟨1, 0, 50⟩ [] "Boar" rfl (by decide) (by decide)
        rfl rfl (by decide)).2.2.1,
    (c7_alert_and_throttle (fun n => if n = 1 then some "Boar" else none) ⟨0⟩
        ⟨true, 20, 0, .cw, 100, 480, 50, 0, 0⟩ ⟨false, 0, false⟩
        ⟨500, 600, [⟨1, 0, 50⟩]⟩ 70000 ⟨1, 0, 50⟩ [] "Boar" rfl (by decide) (by decide)
        rfl rfl (by decide)).2.2.2⟩

/-- C10: the MonitorAnimal handler is not total on its detections — on a healthy,
non-stale tick with a non-empty detection list whose first class id has no
`AnimalClasses` mapping, once the 60,000 ms interval has elapsed the handler
panics with `expect("Unknown animal.")` after the audible alert, emitting no
notification; and the `detections.first().unwrap()` itself can never be the panic
source, being guarded by the enclosing non-empty check. -/
theorem c10_unknown_animal_panics (fromU32 : Nat → Option String)
    (ma : MonitorAnimal.MAState) (s : RoktrackState) (dev : DeviceState)
    (vis : VisualInfo) (now : Nat) (d : Detection) (ds : List Detection) :
    (s.state = true → ¬ (70 : ℚ) < s.pi_temp →
      ¬ (dev.isTurning = true ∧ vis.shooting_start_time < dev.targetTime + 300) →
      vis.detections = d :: ds →
      ma.last_detected_time + 60000 < now →
      fromU32 d.cls = none →
      MonitorAnimal.handle fromU32 ma s dev vis now =
        ⟨⟨now⟩, s, [.speak "animal_detecting"], some "Unknown animal."⟩) ∧
    (MonitorAnimal.handle fromU32 ma s dev vis now).panic ≠ some "unwrap on empty Vec" := by
  constructor
  · intro hs ht hstale hdets hgap hcls
    have hrisk : MonitorAnimal.assess_system_risk s = none := by
      simp [MonitorAnimal.assess_system_risk, hs, ht]
    simp [MonitorAnimal.handle, hrisk, hstale, hdets, hgap, hcls]
  · unfold MonitorAnimal.handle
    split
    · simp
    · simp
    · split
      · simp
      · split
        · simp
        · split
          · split
            · simp_all [List.head?_eq_none_iff]
            · split
              · simp
              · simp
          · simp

/-- Witness for C10: a detection of class 5 with no animal mapping, interval
elapsed — the tick panics with "Unknown animal." after the audible alert. -/
theorem c10_unknown_animal_panics_witness :
    ((0 : ℕ) + 60000 < 70000) ∧
    ((fun _ : Nat => (none : Option String)) 5 = none) ∧
    MonitorAnimal.handle (fun _ => none) ⟨0⟩ ⟨true, 20, 0, .cw, 100, 480, 50, 0, 0⟩
        ⟨false, 0, false⟩ ⟨500, 600, [⟨5, 0, 30⟩]⟩ 70000 =
      ⟨⟨70000⟩, ⟨true, 20, 0, .cw, 100, 480, 50, 0, 0⟩, [.speak "animal_detecting"],
        some "Unknown animal."⟩ ∧
    (MonitorAnimal.handle (fun _ => none) ⟨0⟩ ⟨true, 20, 0, .cw, 100, 480, 50, 0, 0⟩
        ⟨false, 0, false⟩ ⟨500, 600, [⟨5, 0, 30⟩]⟩ 70000).panic ≠
      some "unwrap on empty Vec" :=
  ⟨by decide, rfl,
    (c10_unknown_animal_panics (fun _ => none) ⟨0⟩ ⟨true, 20, 0, .cw, 100, 480, 50, 0, 0⟩
        ⟨false, 0, false⟩ ⟨500, 600, [⟨5, 0, 30⟩]⟩ 70000 ⟨5, 0, 30⟩ []).1 rfl (by decide)
      (by decide) rfl (by decide) rfl,
    (c10_unknown_animal_panics (fun _ => none) ⟨0⟩ ⟨true, 20, 0, .cw, 100, 480, 50, 0, 0⟩
        ⟨false, 0, false⟩ ⟨500, 600, [⟨5, 0, 30⟩]⟩ 70000 ⟨5, 0, 30⟩ []).2⟩
